import Mathlib

/-!
Shallow embedding of `app/avatar/models.py` (Gitcoin avatar models).

External collaborators (image conversion libraries, the perceptual hash,
Django file storage, `secrets.token_hex`) are modelled as an environment
`Env` of abstract functions; Python exceptions are modelled with `Except`;
the avatar database table (`BaseAvatar.objects`, shared by all subclasses)
is modelled as an insertion-ordered list of records.
-/

namespace GitcoinAvatar

/-- A user profile (`dashboard.Profile`); only its `handle` is used here. -/
structure Profile where
  handle : String
deriving DecidableEq

/-- A Python JSON value as stored in `CustomAvatar.config`: either a plain
string or a flat dict of strings (the component-layer entries). -/
inductive PyVal where
  | str (s : String)
  | dict (d : List (String × String))
deriving DecidableEq

/-- An SVG component as assembled by `create_from_config`: either an
`svgutils.compose.Line` or an avatar component built by
`build_avatar_component` from an asset path. -/
inductive SvgComponent where
  | line (points : List (Rat × Rat)) (width : String) (color : String)
  | comp (path : String) (size : Nat × Nat)
deriving DecidableEq

/-- An `svgutils.compose.Figure`: its width, height and component list. -/
structure Figure where
  width : Nat
  height : Nat
  components : List SvgComponent
deriving DecidableEq

/-- The content of a stored file: raw bytes, or a serialized figure. -/
inductive FileContent where
  | bytes (bs : List Nat)
  | figure (fig : Figure)
deriving DecidableEq

/-- A stored file (Django `File`/`ContentFile`): a name and its content. -/
structure Fyle where
  name : String
  content : FileContent
deriving DecidableEq

/-- An avatar database record (`BaseAvatar` row; `config` is the extra
`CustomAvatar` column, absent for social avatars). `profile`, `svg` and
`png` are nullable columns; `hash` is a `CharField` defaulting to the
empty string. -/
structure Avatar where
  active : Bool
  profile : Option Profile
  svg : Option Fyle
  png : Option Fyle
  hash : String
  config : Option (List (String × PyVal))
deriving DecidableEq

/-- An image in memory (`PIL.Image`), abstracted as its pixel bytes. -/
abbrev Img := List Nat

/-- The external collaborators: converters, perceptual hash, PIL decoding,
figure serialization, file storage URLs and the `secrets.token_hex(8)`
value drawn by the current call. Converters and `dhash`/`Image.open` may
raise (return `.error`); a converter may also return a falsy result
(`some  opt = none`). -/
structure Env where
  convert_wand : Option Fyle → String → String → Except String (Option (List Nat))
  convert_img : Option Fyle → String → String → Except String (Option (List Nat))
  dhash : Img → Except String String
  image_open : List Nat → Except String Img
  get_temp_image_file : Img → List Nat
  figure_bytes : Figure → List Nat
  file_url : Fyle → String
  token_hex8 : String

/-- `BaseAvatar.ICON_SIZE = (215, 215)`. -/
def ICON_SIZE : Nat × Nat := (215, 215)

/-- Replace the `svg` field of a record. -/
def Avatar.setSvg (a : Avatar) (f : Option Fyle) : Avatar :=
  Avatar.mk a.active a.profile f a.png a.hash a.config

/-- Replace the `png` field of a record. -/
def Avatar.setPng (a : Avatar) (f : Option Fyle) : Avatar :=
  Avatar.mk a.active a.profile a.svg f a.hash a.config

/-- Replace the `hash` field of a record. -/
def Avatar.setHash (a : Avatar) (h : String) : Avatar :=
  Avatar.mk a.active a.profile a.svg a.png h a.config

/-- `dict.get(k)`: the value for the first matching key, else Python `None`. -/
def dictGet (d : List (String × String)) (k : String) : Option String :=
  (d.find? (fun kv => kv.1 == k)).map (fun kv => kv.2)

/-- Python `f"..."` rendering of a `dict.get` result (`None` prints as
the string `None`). -/
def pyFormatOpt : Option String → String
  | none => "None"
  | some s => s

/-- `payload.get(k)` on the configuration dict itself. -/
def configGet (cfg : List (String × PyVal)) (k : String) : Option PyVal :=
  (cfg.find? (fun kv => kv.1 == k)).map (fun kv => kv.2)

/-- Python `f"..."` rendering of a configuration value (dicts render via
their `repr`, which never occurs on the paths exercised here). -/
def pyFormatVal : Option PyVal → String
  | none => "None"
  | some (PyVal.str s) => s
  | some (PyVal.dict _) => "dict"

/-- Whether a configuration value is a dict (and so supports `.get`). -/
def PyVal.isDict : PyVal → Bool
  | PyVal.dict _ => true
  | PyVal.str _ => false

/-- `v.get(k)` on a configuration value: dicts support `.get`, any other
value raises `AttributeError`. -/
def PyVal.get? : PyVal → String → Except String (Option String)
  | PyVal.dict d, k => Except.ok (dictGet d k)
  | PyVal.str _, _ => Except.error "AttributeError"

/-- `avatar.utils.build_avatar_component(path, icon_size)`, abstracted as
the component constructor carrying its asset path and size. -/
def build_avatar_component (path : String) (size : Nat × Nat) : SvgComponent :=
  SvgComponent.comp path size

/-- The keys of the configuration that are colour options rather than
component layers. -/
def layerExcluded (k : String) : Bool :=
  k == "Background" || k == "ClothingColor" || k == "HairColor" || k == "SkinTone"

/-- The asset path a configuration entry contributes:
`f"{v.get('component_type')}/{v.get('svg_asset')}"` (total rendering;
meaningful for dict values). -/
def entryPath : PyVal → String
  | PyVal.dict d =>
      pyFormatOpt (dictGet d "component_type") ++ "/" ++ pyFormatOpt (dictGet d "svg_asset")
  | PyVal.str _ => ""

/-- One loop iteration of `create_from_config`: build the component for a
configuration value, raising `AttributeError` when the value is not a dict. -/
def componentOfEntry (v : PyVal) : Except String SvgComponent :=
  match v.get? "component_type" with
  | Except.error e => Except.error e
  | Except.ok ct =>
    match v.get? "svg_asset" with
    | Except.error e => Except.error e
    | Except.ok sa =>
        Except.ok (build_avatar_component (pyFormatOpt ct ++ "/" ++ pyFormatOpt sa) ICON_SIZE)

/-- The `for k, v in payload.items()` loop over the already-filtered
component entries, stopping at the first raising entry. -/
def componentsOf : List (String × PyVal) → Except String (List SvgComponent)
  | [] => Except.ok []
  | kv :: rest =>
    match componentOfEntry kv.2 with
    | Except.error e => Except.error e
    | Except.ok c =>
      match componentsOf rest with
      | Except.error e => Except.error e
      | Except.ok cs => Except.ok (c :: cs)

/-- The background `Line` of `create_from_config`: spans the icon at half
height, stroke width `f"{icon_height}px"`, colour
`f"#{payload.get('Background')}"`. -/
def backgroundLine (cfg : List (String × PyVal)) : SvgComponent :=
  SvgComponent.line
    [((0 : Rat), (ICON_SIZE.2 : Rat) / 2), ((ICON_SIZE.1 : Rat), (ICON_SIZE.2 : Rat) / 2)]
    (toString ICON_SIZE.2 ++ "px")
    ("#" ++ pyFormatVal (configGet cfg "Background"))

/-- The `Figure` assembled by `CustomAvatar.create_from_config` from the
configuration: icon size, background line, then one component per
non-colour entry in iteration order. -/
def create_from_config_figure (cfg : List (String × PyVal)) : Except String Figure :=
  match componentsOf (cfg.filter (fun kv => !layerExcluded kv.1)) with
  | Except.error e => Except.error e
  | Except.ok comps => Except.ok (Figure.mk ICON_SIZE.1 ICON_SIZE.2 (backgroundLine cfg :: comps))

/-- `CustomAvatar.create_from_config`: assemble the figure and save it on
the record's `svg` field under `<handle>.svg` (or a random token when the
profile is absent or its handle empty). Raises whatever the assembly
raises. -/
def create_from_config (env : Env) (a : Avatar) : Except String Avatar :=
  match create_from_config_figure (a.config.getD []) with
  | Except.error e => Except.error e
  | Except.ok fig =>
    let svg_name :=
      match a.profile with
      | some p => if p.handle ≠ "" then p.handle else env.token_hex8
      | none => env.token_hex8
    Except.ok (a.setSvg (some (Fyle.mk (svg_name ++ ".svg") (FileContent.figure fig))))

/-- `BaseAvatar.find_similar`: when the record's hash is truthy, the last
stored record with the same profile and hash, else Python `None`. -/
def find_similar (store : List Avatar) (a : Avatar) : Option Avatar :=
  if a.hash ≠ "" then
    (store.filter (fun b => decide (b.profile = a.profile ∧ b.hash = a.hash))).getLast?
  else none

/-- The body of `BaseAvatar.convert_field` before its `try`/`except`:
dispatch on the output format, then name the converted file after the
profile handle or a random token. -/
def convert_field_body (env : Env) (a : Avatar) (source : Option Fyle)
    (input_fmt output_fmt : String) : Except String (Option Fyle) :=
  match (if output_fmt == "svg" then env.convert_wand source input_fmt output_fmt
         else env.convert_img source input_fmt output_fmt) with
  | Except.error e => Except.error e
  | Except.ok tmpfile =>
    let png_name :=
      match a.profile with
      | some p => p.handle
      | none => env.token_hex8
    match tmpfile with
    | some bs => Except.ok (some (Fyle.mk (png_name ++ "." ++ output_fmt) (FileContent.bytes bs)))
    | none => Except.ok none

/-- `BaseAvatar.convert_field`: the body with every exception caught,
logged, and turned into Python `None`. -/
def convert_field (env : Env) (a : Avatar) (source : Option Fyle)
    (input_fmt output_fmt : String) : Option Fyle :=
  match convert_field_body env a source input_fmt output_fmt with
  | Except.ok r => r
  | Except.error _ => none

/-- Reading a stored file's bytes (`file.read()`); a figure file reads
back as its serialization. -/
def fileRead (env : Env) (f : Fyle) : List Nat :=
  match f.content with
  | FileContent.bytes bs => bs
  | FileContent.figure fig => env.figure_bytes fig

/-- `field.read()` on a nullable field: `None.read()` raises
`AttributeError`. -/
def fieldRead (env : Env) : Option Fyle → Except String (List Nat)
  | none => Except.error "AttributeError"
  | some f => Except.ok (fileRead env f)

/-- `BaseAvatar.calculate_hash`: delegate to the perceptual hash `dhash`. -/
def calculate_hash (env : Env) (image : Img) : Except String String :=
  env.dhash image

/-- `profile.handle` on a nullable profile: raises on `None`. -/
def profileHandle : Option Profile → Except String String
  | none => Except.error "AttributeError"
  | some p => Except.ok p.handle

/-- The `try` block of `CustomAvatar.create`: convert the SVG to PNG,
hash the PNG, and deduplicate; any exception inside leaves the record as
mutated so far and returns it. -/
def createTry (env : Env) (store : List Avatar) (avatar : Avatar) : Avatar :=
  let avatar_png := convert_field env avatar avatar.svg "svg" "png"
  let avatar1 := avatar.setPng avatar_png
  match fieldRead env avatar1.png with
  | Except.error _ => avatar1
  | Except.ok bs =>
    match env.image_open bs with
    | Except.error _ => avatar1
    | Except.ok img =>
      match calculate_hash env img with
      | Except.error _ => avatar1
      | Except.ok h =>
        let avatar2 := avatar1.setHash h
        match find_similar store avatar2 with
        | some similar => similar
        | none => avatar2

/-- The record `CustomAvatar.create` first constructs from its arguments. -/
def initialCustom (profile : Option Profile) (config_json : List (String × PyVal)) : Avatar :=
  Avatar.mk false profile none none "" (some config_json)

/-- `CustomAvatar.create`: build the record, compose its SVG (outside the
`try`, so composition errors propagate), then run the guarded
conversion/hash/deduplication block. -/
def CustomAvatar.create (env : Env) (store : List Avatar) (profile : Option Profile)
    (config_json : List (String × PyVal)) : Except String Avatar :=
  match create_from_config env (initialCustom profile config_json) with
  | Except.error e => Except.error e
  | Except.ok avatar => Except.ok (createTry env store avatar)

/-- `CustomAvatar.select`: copy this avatar's config, files and hash onto
a new record for `profile`, returning a stored duplicate when one exists. -/
def CustomAvatar.select (store : List Avatar) (self : Avatar) (profile : Option Profile) :
    Avatar :=
  let new_avatar := Avatar.mk false profile self.svg self.png self.hash self.config
  match find_similar store new_avatar with
  | some similar => similar
  | none => new_avatar

/-- `SocialAvatar.github_avatar`: hash the incoming image, deduplicate,
otherwise save the PNG under `<handle>.png` and convert it to SVG. No
`try`/`except` of its own: hashing and handle access may raise. -/
def SocialAvatar.github_avatar (env : Env) (store : List Avatar) (profile : Option Profile)
    (avatar_img : Img) : Except String Avatar :=
  match calculate_hash env avatar_img with
  | Except.error e => Except.error e
  | Except.ok avatar_hash =>
    let avatar := Avatar.mk false profile none none avatar_hash none
    match find_similar store avatar with
    | some similar => Except.ok similar
    | none =>
      match profileHandle profile with
      | Except.error e => Except.error e
      | Except.ok handle =>
        let avatar1 := avatar.setPng
          (some (Fyle.mk (handle ++ ".png") (FileContent.bytes (env.get_temp_image_file avatar_img))))
        Except.ok (avatar1.setSvg (convert_field env avatar1 avatar1.png "png" "svg"))

/-- `BaseAvatar.avatar_url`: the PNG URL when a PNG is present, else the
SVG URL, else the empty string. -/
def avatar_url (env : Env) (a : Avatar) : String :=
  match a.png with
  | some f => env.file_url f
  | none =>
    match a.svg with
    | some f => env.file_url f
    | none => ""

/-- `BaseAvatar.determine_response`: the pair of file and content type,
chosen by `use_svg`; accessing an absent field's `.file` raises
`ValueError`. -/
def determine_response (a : Avatar) (use_svg : Bool) : Except String (Fyle × String) :=
  if !use_svg then
    match a.png with
    | some f => Except.ok (f, "image/png")
    | none => Except.error "ValueError"
  else
    match a.svg with
    | some f => Except.ok (f, "image/svg+xml")
    | none => Except.error "ValueError"

/-- The shape of a `secrets.token_hex(8)` value: sixteen lowercase
hexadecimal characters. -/
def isHexToken16 (s : String) : Bool :=
  s.length == 16 && s.all (fun c => c.isDigit || (decide ('a' ≤ c) && decide (c ≤ 'f')))

/-! ### Concrete fixtures for evaluating the model -/

/-- An environment in which every external collaborator succeeds. -/
def envOk : Env :=
  Env.mk (fun _ _ _ => Except.ok (some [3, 3])) (fun _ _ _ => Except.ok (some [7, 7]))
    (fun _ => Except.ok "HH") (fun bs => Except.ok bs) (fun i => i) (fun _ => [])
    (fun f => f.name) "0123456789abcdef"

/-- An environment in which the perceptual hash raises. -/
def envBoom : Env :=
  Env.mk (fun _ _ _ => Except.ok (some [3, 3])) (fun _ _ _ => Except.ok (some [7, 7]))
    (fun _ => Except.error "boom") (fun bs => Except.ok bs) (fun i => i) (fun _ => [])
    (fun f => f.name) "0123456789abcdef"

/-- An environment in which the image converters return a falsy result. -/
def envNoPng : Env :=
  Env.mk (fun _ _ _ => Except.ok none) (fun _ _ _ => Except.ok none)
    (fun _ => Except.ok "HH") (fun bs => Except.ok bs) (fun i => i) (fun _ => [])
    (fun f => f.name) "0123456789abcdef"

/-- An environment in which the image converters raise. -/
def envConvErr : Env :=
  Env.mk (fun _ _ _ => Except.error "convfail") (fun _ _ _ => Except.error "convfail")
    (fun _ => Except.ok "HH") (fun bs => Except.ok bs) (fun i => i) (fun _ => [])
    (fun f => f.name) "0123456789abcdef"

/-- A concrete profile. -/
def prA : Profile := Profile.mk "alice"

/-- A configuration with only a background colour. -/
def cfg0 : List (String × PyVal) := [("Background", PyVal.str "fff")]

/-- A configuration with a background colour and one component layer. -/
def cfgEyes : List (String × PyVal) :=
  [("Background", PyVal.str "abc"),
   ("Eyes", PyVal.dict [("component_type", "eyes"), ("svg_asset", "eyes_1.svg")])]

/-- A configuration whose component entry is a plain string: its `.get`
call in `create_from_config` raises `AttributeError`. -/
def cfgBad : List (String × PyVal) := [("Eyes", PyVal.str "nope")]

/-- A stored avatar of `prA` with hash `HH`, for deduplication tests. -/
def storedA : Avatar := Avatar.mk true (some prA) none none "HH" none

/-! ### Helper lemmas -/

/-- A nonempty list has a last element, and it is a member. -/
theorem getLast?_mem_of_ne_nil {α : Type} :
    ∀ (l : List α), l ≠ [] → ∃ x, l.getLast? = some x ∧ x ∈ l
  | [], h => absurd rfl h
  | [a], _ => ⟨a, List.getLast?_singleton a, List.mem_singleton_self a⟩
  | a :: b :: t, _ => by
    obtain ⟨x, hx, hm⟩ := getLast?_mem_of_ne_nil (b :: t) (by simp)
    exact ⟨x, by rw [List.getLast?_cons_cons]; exact hx, List.mem_cons_of_mem a hm⟩

/-- When the record's hash is nonempty and some stored record matches its
profile and hash, `find_similar` returns a stored record matching both. -/
theorem find_similar_some (store : List Avatar) (a : Avatar) (hh : a.hash ≠ "")
    (b : Avatar) (hb : b ∈ store) (hbp : b.profile = a.profile) (hbh : b.hash = a.hash) :
    ∃ r, find_similar store a = some r ∧ r ∈ store ∧ r.profile = a.profile ∧ r.hash = a.hash := by
  unfold find_similar
  rw [if_pos hh]
  have hbf : b ∈ store.filter (fun c => decide (c.profile = a.profile ∧ c.hash = a.hash)) :=
    List.mem_filter.mpr ⟨hb, by simp [hbp, hbh]⟩
  have hne : store.filter (fun c => decide (c.profile = a.profile ∧ c.hash = a.hash)) ≠ [] := by
    intro hnil
    rw [hnil] at hbf
    exact List.not_mem_nil b hbf
  obtain ⟨x, hx, hmem⟩ :=
    getLast?_mem_of_ne_nil (store.filter (fun c => decide (c.profile = a.profile ∧ c.hash = a.hash))) hne
  have hxp := List.mem_filter.mp hmem
  refine ⟨x, hx, hxp.1, ?_, ?_⟩
  · exact (of_decide_eq_true hxp.2).1
  · exact (of_decide_eq_true hxp.2).2

/-- When no stored record matches the profile and hash, `find_similar`
returns `None`. -/
theorem find_similar_none (store : List Avatar) (a : Avatar)
    (h : ∀ b ∈ store, ¬(b.profile = a.profile ∧ b.hash = a.hash)) :
    find_similar store a = none := by
  unfold find_similar
  by_cases hh : a.hash ≠ ""
  · rw [if_pos hh]
    have hnil : store.filter (fun c => decide (c.profile = a.profile ∧ c.hash = a.hash)) = [] := by
      rw [List.filter_eq_nil_iff]
      intro b hb
      simp only [decide_eq_true_eq]
      exact h b hb
    rw [hnil]
    rfl
  · rw [if_neg hh]

/-- Whatever `find_similar` returns is a stored record with the matching
profile and hash. -/
theorem find_similar_mem {store : List Avatar} {a r : Avatar}
    (h : find_similar store a = some r) :
    r ∈ store ∧ r.profile = a.profile ∧ r.hash = a.hash := by
  unfold find_similar at h
  by_cases hh : a.hash ≠ ""
  · rw [if_pos hh] at h
    cases hl : store.filter (fun c => decide (c.profile = a.profile ∧ c.hash = a.hash)) with
    | nil => rw [hl] at h; exact absurd h (by simp)
    | cons x t =>
      have hne : store.filter (fun c => decide (c.profile = a.profile ∧ c.hash = a.hash)) ≠ [] := by
        rw [hl]; simp
      obtain ⟨y, hy, hmem⟩ :=
        getLast?_mem_of_ne_nil (store.filter (fun c => decide (c.profile = a.profile ∧ c.hash = a.hash))) hne
      rw [hy] at h
      cases h
      have hxp := List.mem_filter.mp hmem
      exact ⟨hxp.1, (of_decide_eq_true hxp.2).1, (of_decide_eq_true hxp.2).2⟩
  · rw [if_neg hh] at h
    exact absurd h (by simp)

/-- `create_from_config` only writes the `svg` field: every other field is
preserved, and on success the `svg` field is set. -/
theorem create_from_config_fields {env : Env} {a a1 : Avatar}
    (h : create_from_config env a = Except.ok a1) :
    a1.active = a.active ∧ a1.profile = a.profile ∧ a1.png = a.png ∧
      a1.hash = a.hash ∧ a1.config = a.config ∧ a1.svg.isSome = true := by
  unfold create_from_config at h
  cases hfig : create_from_config_figure (a.config.getD []) with
  | error e => rw [hfig] at h; exact absurd h (by simp)
  | ok fig =>
    rw [hfig] at h
    cases h
    exact ⟨rfl, rfl, rfl, rfl, rfl, rfl⟩

/-- `convert_field` reads only the `profile` field of its receiver. -/
theorem convert_field_congr (env : Env) {a b : Avatar} (hp : a.profile = b.profile)
    (source : Option Fyle) (input_fmt output_fmt : String) :
    convert_field env a source input_fmt output_fmt =
      convert_field env b source input_fmt output_fmt := by
  unfold convert_field convert_field_body
  rw [hp]

/-- When conversion, decoding and hashing all succeed, the `try` block of
`CustomAvatar.create` stores the converted PNG and the computed hash on
the record and deduplicates. -/
theorem createTry_hash_ok {env : Env} {store : List Avatar} {avatar : Avatar} {f : Fyle}
    {img : Img} {h : String}
    (h2 : convert_field env avatar avatar.svg "svg" "png" = some f)
    (h3 : env.image_open (fileRead env f) = Except.ok img)
    (h4 : env.dhash img = Except.ok h) :
    createTry env store avatar =
      match find_similar store ((avatar.setPng (some f)).setHash h) with
      | some similar => similar
      | none => (avatar.setPng (some f)).setHash h := by
  unfold createTry
  rw [h2]
  show (match fieldRead env (avatar.setPng (some f)).png with
    | Except.error _ => avatar.setPng (some f)
    | Except.ok bs => _) = _
  simp only [Avatar.setPng, fieldRead]
  rw [h3]
  simp only [calculate_hash, h4]

/-- When conversion, decoding and hashing all succeed but no stored
record matches, the `try` block returns the record carrying the converted
PNG and the computed hash. -/
theorem createTry_no_dup {env : Env} {store : List Avatar} {avatar : Avatar} {f : Fyle}
    {img : Img} {h : String}
    (h2 : convert_field env avatar avatar.svg "svg" "png" = some f)
    (h3 : env.image_open (fileRead env f) = Except.ok img)
    (h4 : env.dhash img = Except.ok h)
    (h5 : find_similar store ((avatar.setPng (some f)).setHash h) = none) :
    createTry env store avatar = (avatar.setPng (some f)).setHash h := by
  rw [createTry_hash_ok h2 h3 h4, h5]

/-- On a list of entries whose values are all dicts, the component loop
succeeds and yields one component per entry, carrying that entry's asset
path. -/
theorem componentsOf_dicts :
    ∀ (l : List (String × PyVal)), (∀ kv ∈ l, ∃ d, kv.2 = PyVal.dict d) →
      componentsOf l =
        Except.ok (l.map (fun kv => SvgComponent.comp (entryPath kv.2) ICON_SIZE))
  | [], _ => rfl
  | kv :: rest, h => by
    obtain ⟨d, hd⟩ := h kv (List.mem_cons_self kv rest)
    have hrest := componentsOf_dicts rest (fun x hx => h x (List.mem_cons_of_mem kv hx))
    unfold componentsOf
    rw [hd]
    have hce : componentOfEntry (PyVal.dict d) =
        Except.ok (SvgComponent.comp (entryPath (PyVal.dict d)) ICON_SIZE) := rfl
    simp only [hce, hrest, List.map_cons, hd]

/-- The background line of the composed figure, written out: it spans the
icon at half height with a stroke as wide as the icon is tall, coloured
from the configuration's `Background` entry. -/
theorem backgroundLine_eq (cfg : List (String × PyVal)) :
    backgroundLine cfg =
      SvgComponent.line [((0 : Rat), (215 : Rat) / 2), ((215 : Rat), (215 : Rat) / 2)] "215px"
        ("#" ++ pyFormatVal (configGet cfg "Background")) := by
  unfold backgroundLine ICON_SIZE
  norm_num
  rfl

/-- When conversion succeeds but hashing raises, the `try` block of
`CustomAvatar.create` keeps the already-assigned PNG and leaves the hash
untouched. -/
theorem createTry_hash_err {env : Env} {store : List Avatar} {avatar : Avatar} {f : Fyle}
    {img : Img} {e : String}
    (h2 : convert_field env avatar avatar.svg "svg" "png" = some f)
    (h3 : env.image_open (fileRead env f) = Except.ok img)
    (h4 : env.dhash img = Except.error e) :
    createTry env store avatar = avatar.setPng (some f) := by
  unfold createTry
  rw [h2]
  show (match fieldRead env (avatar.setPng (some f)).png with
    | Except.error _ => avatar.setPng (some f)
    | Except.ok bs => _) = _
  simp only [Avatar.setPng, fieldRead]
  rw [h3]
  simp only [calculate_hash, h4]

/-- When conversion yields `None`, the `try` block of `CustomAvatar.create`
fails at `None.read()` and leaves the record with no PNG and its hash
untouched. -/
theorem createTry_conv_none {env : Env} {store : List Avatar} {avatar : Avatar}
    (h2 : convert_field env avatar avatar.svg "svg" "png" = none) :
    createTry env store avatar = avatar.setPng none := by
  simp only [createTry, h2, Avatar.setPng, fieldRead]

/-- The `try` block of `CustomAvatar.create` either returns a stored
record (deduplication) or a record that keeps the input's profile, config
and SVG. -/
theorem createTry_cases (env : Env) (store : List Avatar) (a : Avatar) :
    createTry env store a ∈ store ∨
      ((createTry env store a).profile = a.profile ∧
        (createTry env store a).config = a.config ∧
        (createTry env store a).svg = a.svg) := by
  unfold createTry
  cases hread : fieldRead env (a.setPng (convert_field env a a.svg "svg" "png")).png with
  | error e =>
    simp only [hread]
    right
    exact ⟨rfl, rfl, rfl⟩
  | ok bs =>
    simp only [hread]
    cases hopen : env.image_open bs with
    | error e =>
      simp only [hopen]
      right
      exact ⟨rfl, rfl, rfl⟩
    | ok img =>
      simp only [hopen]
      cases hhash : calculate_hash env img with
      | error e =>
        simp only [hhash]
        right
        exact ⟨rfl, rfl, rfl⟩
      | ok h =>
        simp only [hhash]
        cases hfs : find_similar store
            ((a.setPng (convert_field env a a.svg "svg" "png")).setHash h) with
        | some similar =>
          simp only [hfs]
          left
          exact (find_similar_mem hfs).1
        | none =>
          simp only [hfs]
          right
          exact ⟨rfl, rfl, rfl⟩

/-! ### Claim theorems -/

/-- Claim C8: `avatar_url` prefers the PNG: it returns the PNG file's URL
when a PNG is present, otherwise the SVG file's URL when an SVG is
present, and otherwise the empty string; it is a total function and never
raises. -/
theorem C8_avatar_url_prefers_png (env : Env) (a : Avatar) :
    (∀ f, a.png = some f → avatar_url env a = env.file_url f) ∧
    (a.png = none → ∀ g, a.svg = some g → avatar_url env a = env.file_url g) ∧
    (a.png = none → a.svg = none → avatar_url env a = "") := by
  refine ⟨?_, ?_, ?_⟩
  · intro f hf
    unfold avatar_url
    rw [hf]
  · intro hp g hg
    unfold avatar_url
    rw [hp, hg]
  · intro hp hs
    unfold avatar_url
    rw [hp, hs]

/-- Witness for C8 at concrete records: a PNG-bearing record yields the
PNG URL, an SVG-only record yields the SVG URL, an empty record yields
the empty string. -/
theorem C8_witness :
    avatar_url envOk (Avatar.mk false none (some (Fyle.mk "a.svg" (FileContent.bytes [1])))
        (some (Fyle.mk "a.png" (FileContent.bytes [2]))) "" none) = "a.png" ∧
    avatar_url envOk (Avatar.mk false none (some (Fyle.mk "a.svg" (FileContent.bytes [1])))
        none "" none) = "a.svg" ∧
    avatar_url envOk (Avatar.mk false none none none "" none) = "" := by
  refine ⟨?_, ?_, ?_⟩
  · exact (C8_avatar_url_prefers_png envOk
      (Avatar.mk false none (some (Fyle.mk "a.svg" (FileContent.bytes [1])))
        (some (Fyle.mk "a.png" (FileContent.bytes [2]))) "" none)).1
      (Fyle.mk "a.png" (FileContent.bytes [2])) rfl
  · exact (C8_avatar_url_prefers_png envOk
      (Avatar.mk false none (some (Fyle.mk "a.svg" (FileContent.bytes [1]))) none "" none)).2.1
      rfl (Fyle.mk "a.svg" (FileContent.bytes [1])) rfl
  · exact (C8_avatar_url_prefers_png envOk (Avatar.mk false none none none "" none)).2.2 rfl rfl

/-- Claim C9: `find_similar` is guarded by the hash: a record with an
empty hash is looked up in no store — the result is `None` for every
store, so a record whose hash computation failed never matches a stored
record. -/
theorem C9_find_similar_guard (store : List Avatar) (a : Avatar) (hh : a.hash = "") :
    find_similar store a = none := by
  unfold find_similar
  rw [if_neg (by simp [hh])]

/-- Witness for C9: an empty-hash record is not matched even against a
store holding a record with the same profile and the same (empty) hash. -/
theorem C9_witness :
    find_similar [Avatar.mk true (some prA) none none "" none]
      (Avatar.mk false (some prA) none none "" none) = none :=
  C9_find_similar_guard [Avatar.mk true (some prA) none none "" none]
    (Avatar.mk false (some prA) none none "" none) rfl

/-- Claim C10: `determine_response` pairs file and content type by the
`use_svg` flag: the SVG file with `image/svg+xml` exactly when `use_svg`
is true, the PNG file with `image/png` otherwise; the chosen field is
accessed unguarded, so the call raises (`ValueError`) when that file is
absent. -/
theorem C10_determine_response_pairs (a : Avatar) (use_svg : Bool) :
    (use_svg = true → ∀ f, a.svg = some f →
      determine_response a use_svg = Except.ok (f, "image/svg+xml")) ∧
    (use_svg = true → a.svg = none →
      determine_response a use_svg = Except.error "ValueError") ∧
    (use_svg = false → ∀ f, a.png = some f →
      determine_response a use_svg = Except.ok (f, "image/png")) ∧
    (use_svg = false → a.png = none →
      determine_response a use_svg = Except.error "ValueError") ∧
    (∀ f ct, determine_response a use_svg = Except.ok (f, ct) →
      (ct = "image/svg+xml" ↔ use_svg = true)) := by
  refine ⟨?_, ?_, ?_, ?_, ?_⟩
  · intro hb f hf
    subst hb
    unfold determine_response
    simp [hf]
  · intro hb hs
    subst hb
    unfold determine_response
    simp [hs]
  · intro hb f hf
    subst hb
    unfold determine_response
    simp [hf]
  · intro hb hp
    subst hb
    unfold determine_response
    simp [hp]
  · intro f ct hok
    cases use_svg with
    | true =>
      unfold determine_response at hok
      cases hs : a.svg with
      | none => rw [hs] at hok; exact absurd hok (by simp)
      | some g =>
        rw [hs] at hok
        simp only [Bool.not_true, Bool.false_eq_true, if_false, Except.ok.injEq,
          Prod.mk.injEq] at hok
        simp [hok.2.symm]
    | false =>
      unfold determine_response at hok
      cases hp : a.png with
      | none => rw [hp] at hok; exact absurd hok (by simp)
      | some g =>
        rw [hp] at hok
        simp only [Bool.not_false, if_true, Except.ok.injEq, Prod.mk.injEq] at hok
        simp [hok.2.symm]

/-- Witness for C10: at a record holding both files, the SVG pairing is
served when `use_svg` is true and the PNG pairing otherwise. -/
theorem C10_witness :
    determine_response (Avatar.mk false none (some (Fyle.mk "a.svg" (FileContent.bytes [1])))
        (some (Fyle.mk "a.png" (FileContent.bytes [2]))) "" none) true =
      Except.ok (Fyle.mk "a.svg" (FileContent.bytes [1]), "image/svg+xml") ∧
    determine_response (Avatar.mk false none (some (Fyle.mk "a.svg" (FileContent.bytes [1])))
        (some (Fyle.mk "a.png" (FileContent.bytes [2]))) "" none) false =
      Except.ok (Fyle.mk "a.png" (FileContent.bytes [2]), "image/png") := by
  refine ⟨?_, ?_⟩
  · exact (C10_determine_response_pairs
      (Avatar.mk false none (some (Fyle.mk "a.svg" (FileContent.bytes [1])))
        (some (Fyle.mk "a.png" (FileContent.bytes [2]))) "" none) true).1 rfl
      (Fyle.mk "a.svg" (FileContent.bytes [1])) rfl
  · exact (C10_determine_response_pairs
      (Avatar.mk false none (some (Fyle.mk "a.svg" (FileContent.bytes [1])))
        (some (Fyle.mk "a.png" (FileContent.bytes [2]))) "" none) false).2.2.1 rfl
      (Fyle.mk "a.png" (FileContent.bytes [2])) rfl

/-- Claim C1: avatars are deduplicated via perceptual hashing: whenever
the new record's hash is set (for `create`, the pipeline that computes it
succeeded with a nonempty hash) and some previously stored record has the
same profile and the same hash, `CustomAvatar.create`,
`CustomAvatar.select` and `SocialAvatar.github_avatar` each return a
stored record with that profile and hash instead of the newly built
record. -/
theorem C1_dedup_by_hash :
    (∀ (env : Env) (store : List Avatar) (p : Option Profile) (cfg : List (String × PyVal))
        (a1 : Avatar) (f : Fyle) (img : Img) (h : String),
      create_from_config env (initialCustom p cfg) = Except.ok a1 →
      convert_field env a1 a1.svg "svg" "png" = some f →
      env.image_open (fileRead env f) = Except.ok img →
      env.dhash img = Except.ok h → h ≠ "" →
      (∃ b ∈ store, b.profile = p ∧ b.hash = h) →
      ∃ r, CustomAvatar.create env store p cfg = Except.ok r ∧
        r ∈ store ∧ r.profile = p ∧ r.hash = h) ∧
    (∀ (store : List Avatar) (self : Avatar) (p : Option Profile),
      self.hash ≠ "" →
      (∃ b ∈ store, b.profile = p ∧ b.hash = self.hash) →
      CustomAvatar.select store self p ∈ store ∧
        (CustomAvatar.select store self p).profile = p ∧
        (CustomAvatar.select store self p).hash = self.hash) ∧
    (∀ (env : Env) (store : List Avatar) (p : Option Profile) (img : Img) (h : String),
      env.dhash img = Except.ok h → h ≠ "" →
      (∃ b ∈ store, b.profile = p ∧ b.hash = h) →
      ∃ r, SocialAvatar.github_avatar env store p img = Except.ok r ∧
        r ∈ store ∧ r.profile = p ∧ r.hash = h) := by
  refine ⟨?_, ?_, ?_⟩
  · intro env store p cfg a1 f img h h1 h2 h3 h4 hne hex
    obtain ⟨b, hb, hbp, hbh⟩ := hex
    have hfields := create_from_config_fields h1
    have hprof : ((a1.setPng (some f)).setHash h).profile = p := by
      simp only [Avatar.setPng, Avatar.setHash]
      rw [hfields.2.1]
      rfl
    obtain ⟨r, hr, hmem, hrp, hrh⟩ :=
      find_similar_some store ((a1.setPng (some f)).setHash h) (by simpa using hne) b hb
        (by rw [hprof]; exact hbp) (by simpa using hbh)
    refine ⟨r, ?_, hmem, by rw [hrp]; exact hprof, by simpa using hrh⟩
    unfold CustomAvatar.create
    rw [h1]
    show Except.ok (createTry env store a1) = Except.ok r
    rw [createTry_hash_ok h2 h3 h4, hr]
  · intro store self p hne hex
    obtain ⟨b, hb, hbp, hbh⟩ := hex
    obtain ⟨r, hr, hmem, hrp, hrh⟩ :=
      find_similar_some store (Avatar.mk false p self.svg self.png self.hash self.config)
        (by simpa using hne) b hb (by simpa using hbp) (by simpa using hbh)
    unfold CustomAvatar.select
    simp only [hr]
    exact ⟨hmem, by simpa using hrp, by simpa using hrh⟩
  · intro env store p img h h4 hne hex
    obtain ⟨b, hb, hbp, hbh⟩ := hex
    obtain ⟨r, hr, hmem, hrp, hrh⟩ :=
      find_similar_some store (Avatar.mk false p none none h none) (by simpa using hne) b hb
        (by simpa using hbp) (by simpa using hbh)
    refine ⟨r, ?_, hmem, by simpa using hrp, by simpa using hrh⟩
    unfold SocialAvatar.github_avatar calculate_hash
    rw [h4]
    show (match find_similar store (Avatar.mk false p none none h none) with
      | some similar => Except.ok similar
      | none => _) = Except.ok r
    rw [hr]

/-- Witness for C1: with every collaborator succeeding and a stored
avatar of `alice` with hash `HH`, `create` returns that stored avatar. -/
theorem C1_witness :
    ∃ r, CustomAvatar.create envOk [storedA] (some prA) cfg0 = Except.ok r ∧
      r ∈ [storedA] ∧ r.profile = some prA ∧ r.hash = "HH" :=
  C1_dedup_by_hash.1 envOk [storedA] (some prA) cfg0
    (Avatar.mk false (some prA)
      (some (Fyle.mk "alice.svg" (FileContent.figure (Figure.mk 215 215 [backgroundLine cfg0]))))
      none "" (some cfg0))
    (Fyle.mk "alice.png" (FileContent.bytes [7, 7])) [7, 7] "HH"
    rfl rfl rfl rfl (by decide) ⟨storedA, by simp, rfl, rfl⟩

/-- Claim C2: `create_from_config` assembles the SVG from named layers
and a background colour: for every configuration (whose component entries
are dicts, as any other value raises before a figure exists), the
composed figure has the fixed 215x215 icon size and starts with exactly
one background line from `(0, height/2)` to `(width, height/2)` of stroke
width `215px` (the icon height) coloured from the `Background` entry,
followed, in configuration iteration order, by one component per key not
in `Background`/`ClothingColor`/`HairColor`/`SkinTone`, built from the
path `component_type/svg_asset` of that entry (`entryPath`). -/
theorem C2_create_from_config_layers (cfg : List (String × PyVal))
    (hd : ∀ kv ∈ cfg, layerExcluded kv.1 = false → kv.2.isDict = true) :
    create_from_config_figure cfg =
      Except.ok (Figure.mk 215 215
        (SvgComponent.line [((0 : Rat), (215 : Rat) / 2), ((215 : Rat), (215 : Rat) / 2)]
            "215px" ("#" ++ pyFormatVal (configGet cfg "Background")) ::
          (cfg.filter (fun kv => !layerExcluded kv.1)).map
            (fun kv => SvgComponent.comp (entryPath kv.2) (215, 215)))) := by
  have hall : ∀ kv ∈ cfg.filter (fun kv => !layerExcluded kv.1), ∃ d, kv.2 = PyVal.dict d := by
    intro kv hkv
    have hmf := List.mem_filter.mp hkv
    have hdict := hd kv hmf.1 (by simpa using hmf.2)
    cases hv : kv.2 with
    | str s => rw [hv] at hdict; exact absurd hdict (by simp [PyVal.isDict])
    | dict d => exact ⟨d, rfl⟩
  unfold create_from_config_figure
  rw [componentsOf_dicts (cfg.filter (fun kv => !layerExcluded kv.1)) hall]
  show Except.ok (Figure.mk ICON_SIZE.1 ICON_SIZE.2 (backgroundLine cfg :: _)) = _
  rw [backgroundLine_eq]
  rfl

/-- Witness for C2 at a concrete configuration with a background colour
and one `Eyes` layer: the composed figure is the background line followed
by the `eyes/eyes_1.svg` component. -/
theorem C2_witness :
    create_from_config_figure cfgEyes =
      Except.ok (Figure.mk 215 215
        (SvgComponent.line [((0 : Rat), (215 : Rat) / 2), ((215 : Rat), (215 : Rat) / 2)]
            "215px" ("#" ++ pyFormatVal (configGet cfgEyes "Background")) ::
          (cfgEyes.filter (fun kv => !layerExcluded kv.1)).map
            (fun kv => SvgComponent.comp (entryPath kv.2) (215, 215)))) :=
  C2_create_from_config_layers cfgEyes (by decide)

/-- Claim C3: `convert_field` dispatches on the output format: the
wand-based converter is consulted exactly when the output format is
`svg`, the image-based converter otherwise; a successful result is a file
holding the converted bytes, named `<profile handle>.<output_fmt>` when
the record has a profile and `<16-hex-char token>.<output_fmt>` (the
`token_hex(8)` draw) otherwise. -/
theorem C3_convert_field_dispatch (env : Env) (a : Avatar) (source : Option Fyle)
    (input_fmt output_fmt : String) (f : Fyle)
    (hok : convert_field env a source input_fmt output_fmt = some f) :
    (∃ bs, (if output_fmt == "svg" then env.convert_wand source input_fmt output_fmt
            else env.convert_img source input_fmt output_fmt) = Except.ok (some bs) ∧
      f.content = FileContent.bytes bs) ∧
    (∀ p, a.profile = some p → f.name = p.handle ++ "." ++ output_fmt) ∧
    (a.profile = none → f.name = env.token_hex8 ++ "." ++ output_fmt) ∧
    (a.profile = none → isHexToken16 env.token_hex8 = true →
      ∃ t, isHexToken16 t = true ∧ f.name = t ++ "." ++ output_fmt) := by
  unfold convert_field convert_field_body at hok
  cases hdisp : (if output_fmt == "svg" then env.convert_wand source input_fmt output_fmt
                 else env.convert_img source input_fmt output_fmt) with
  | error e =>
    rw [hdisp] at hok
    exact absurd hok (by simp)
  | ok tmp =>
    rw [hdisp] at hok
    cases tmp with
    | none => exact absurd hok (by simp)
    | some bs =>
      have hok2 : some (Fyle.mk
          ((match a.profile with | some p => p.handle | none => env.token_hex8) ++ "." ++
            output_fmt) (FileContent.bytes bs)) = some f := hok
      obtain rfl := (Option.some.inj hok2).symm
      refine ⟨⟨bs, rfl, rfl⟩, ?_, ?_, ?_⟩
      · intro p hp
        show (match a.profile with | some p => p.handle | none => env.token_hex8) ++ "." ++
          output_fmt = p.handle ++ "." ++ output_fmt
        rw [hp]
      · intro hp
        show (match a.profile with | some p => p.handle | none => env.token_hex8) ++ "." ++
          output_fmt = env.token_hex8 ++ "." ++ output_fmt
        rw [hp]
      · intro hp htok
        refine ⟨env.token_hex8, htok, ?_⟩
        show (match a.profile with | some p => p.handle | none => env.token_hex8) ++ "." ++
          output_fmt = env.token_hex8 ++ "." ++ output_fmt
        rw [hp]

/-- Witness for C3: a profile-less record converted to `png` in `envOk`
yields the image-converter's bytes under the token-named file. -/
theorem C3_witness :
    (∃ bs, (if ("png" : String) == "svg" then envOk.convert_wand none "svg" "png"
            else envOk.convert_img none "svg" "png") = Except.ok (some bs) ∧
      (Fyle.mk "0123456789abcdef.png" (FileContent.bytes [7, 7])).content =
        FileContent.bytes bs) ∧
    (∀ p, (Avatar.mk false none none none "" none).profile = some p →
      (Fyle.mk "0123456789abcdef.png" (FileContent.bytes [7, 7])).name =
        p.handle ++ "." ++ "png") ∧
    ((Avatar.mk false none none none "" none).profile = none →
      (Fyle.mk "0123456789abcdef.png" (FileContent.bytes [7, 7])).name =
        envOk.token_hex8 ++ "." ++ "png") ∧
    ((Avatar.mk false none none none "" none).profile = none →
      isHexToken16 envOk.token_hex8 = true →
      ∃ t, isHexToken16 t = true ∧
        (Fyle.mk "0123456789abcdef.png" (FileContent.bytes [7, 7])).name =
          t ++ "." ++ "png") :=
  C3_convert_field_dispatch envOk (Avatar.mk false none none none "" none) none "svg" "png"
    (Fyle.mk "0123456789abcdef.png" (FileContent.bytes [7, 7])) rfl

/-- Claim C4 counterexample: `SocialAvatar.github_avatar` has no
`try`/`except` of its own — when the perceptual hash raises (`envBoom`),
the exception propagates to the caller instead of being logged and
returned normally; and `CustomAvatar.create` calls `create_from_config`
outside its `try` block, so the `AttributeError` raised by the string
component entry of `cfgBad` propagates out of `create` as well. -/
theorem C4_counterexample :
    SocialAvatar.github_avatar envBoom [] (some prA) [0] = Except.error "boom" ∧
    CustomAvatar.create envOk [] (some prA) cfgBad = Except.error "AttributeError" :=
  ⟨rfl, rfl⟩

/-- Claim C4 (amended): broad catching holds for `convert_field` (any
internal exception is logged and turned into `None`) and for the
conversion/hash/deduplication block of `CustomAvatar.create` (whenever
SVG composition succeeded, `create` returns normally); but
`SocialAvatar.github_avatar` catches nothing itself — an exception from
the hash propagates — and an exception in `create_from_config` propagates
out of `CustomAvatar.create`. -/
theorem C4_amended_catching :
    (∀ (env : Env) (a : Avatar) (source : Option Fyle) (input_fmt output_fmt e : String),
      convert_field_body env a source input_fmt output_fmt = Except.error e →
      convert_field env a source input_fmt output_fmt = none) ∧
    (∀ (env : Env) (store : List Avatar) (p : Option Profile)
        (cfg : List (String × PyVal)) (a1 : Avatar),
      create_from_config env (initialCustom p cfg) = Except.ok a1 →
      ∃ r, CustomAvatar.create env store p cfg = Except.ok r) ∧
    (∀ (env : Env) (store : List Avatar) (p : Option Profile)
        (cfg : List (String × PyVal)) (e : String),
      create_from_config env (initialCustom p cfg) = Except.error e →
      CustomAvatar.create env store p cfg = Except.error e) ∧
    (∀ (env : Env) (store : List Avatar) (p : Option Profile) (img : Img) (e : String),
      env.dhash img = Except.error e →
      SocialAvatar.github_avatar env store p img = Except.error e) := by
  refine ⟨?_, ?_, ?_, ?_⟩
  · intro env a source input_fmt output_fmt e hbody
    unfold convert_field
    rw [hbody]
  · intro env store p cfg a1 h1
    unfold CustomAvatar.create
    rw [h1]
    exact ⟨createTry env store a1, rfl⟩
  · intro env store p cfg e h1
    unfold CustomAvatar.create
    rw [h1]
  · intro env store p img e hdh
    unfold SocialAvatar.github_avatar calculate_hash
    rw [hdh]

/-- Witness for the amended C4: a raising converter is caught and yields
`None`; a successful composition makes `create` return normally even
though `envBoom` hashing raises; a raising composition propagates out of
`create`; the raising hash propagates out of `github_avatar`. -/
theorem C4_witness :
    convert_field envConvErr (Avatar.mk false none none none "" none) none "svg" "png" = none ∧
    (∃ r, CustomAvatar.create envBoom [] (some prA) cfg0 = Except.ok r) ∧
    CustomAvatar.create envOk [] none cfgBad = Except.error "AttributeError" ∧
    SocialAvatar.github_avatar envBoom [] (some prA) [1] = Except.error "boom" := by
  refine ⟨?_, ?_, ?_, ?_⟩
  · exact C4_amended_catching.1 envConvErr (Avatar.mk false none none none "" none) none
      "svg" "png" "convfail" rfl
  · exact C4_amended_catching.2.1 envBoom [] (some prA) cfg0
      (Avatar.mk false (some prA)
        (some (Fyle.mk "alice.svg"
          (FileContent.figure (Figure.mk 215 215 [backgroundLine cfg0]))))
        none "" (some cfg0)) rfl
  · exact C4_amended_catching.2.2.1 envOk [] none cfgBad "AttributeError" rfl
  · exact C4_amended_catching.2.2.2 envBoom [] (some prA) [1] "boom" rfl

/-- Claim C5 counterexample: when the converter returns a falsy result
(`envNoPng`) and the given profile is `None`, `CustomAvatar.create`
produces a record with no owning profile, no PNG file and an empty hash —
so these are not invariants of records produced by the module. -/
theorem C5_counterexample :
    Except.map (fun r => (r.profile, r.png, r.hash))
        (CustomAvatar.create envNoPng [] none cfg0) =
      Except.ok (none, none, "") ∧
    (initialCustom none cfg0).png = none := ⟨rfl, rfl⟩

/-- Claim C5 (amended): an avatar record has a nullable owning profile,
nullable SVG and PNG files, a hash string and — for custom avatars — a
config blob; every record `CustomAvatar.create` returns is either a
previously stored record or carries the given profile and configuration
with its composed SVG set (the PNG and hash may be missing when
conversion fails). -/
theorem C5_amended_fields (env : Env) (store : List Avatar) (p : Option Profile)
    (cfg : List (String × PyVal)) (a1 r : Avatar)
    (h1 : create_from_config env (initialCustom p cfg) = Except.ok a1)
    (hr : CustomAvatar.create env store p cfg = Except.ok r) :
    r ∈ store ∨ (r.profile = p ∧ r.config = some cfg ∧ r.svg.isSome = true) := by
  unfold CustomAvatar.create at hr
  rw [h1] at hr
  have hr2 : Except.ok (createTry env store a1) = Except.ok r := hr
  cases hr2
  have hfields := create_from_config_fields h1
  rcases createTry_cases env store a1 with hmem | ⟨hp, hc, hs⟩
  · left
    exact hmem
  · right
    refine ⟨?_, ?_, ?_⟩
    · rw [hp, hfields.2.1]
      rfl
    · rw [hc, hfields.2.2.2.2.1]
      rfl
    · rw [hs]
      exact hfields.2.2.2.2.2

/-- Witness for the amended C5: the record built by `create` in `envOk`
against an empty store carries the profile, the configuration and an SVG. -/
theorem C5_witness :
    (Avatar.mk false (some prA)
          (some (Fyle.mk "alice.svg"
            (FileContent.figure (Figure.mk 215 215 [backgroundLine cfg0]))))
          (some (Fyle.mk "alice.png" (FileContent.bytes [7, 7]))) "HH" (some cfg0)) ∈
        ([] : List Avatar) ∨
      ((Avatar.mk false (some prA)
          (some (Fyle.mk "alice.svg"
            (FileContent.figure (Figure.mk 215 215 [backgroundLine cfg0]))))
          (some (Fyle.mk "alice.png" (FileContent.bytes [7, 7]))) "HH"
          (some cfg0)).profile = some prA ∧
        (Avatar.mk false (some prA)
          (some (Fyle.mk "alice.svg"
            (FileContent.figure (Figure.mk 215 215 [backgroundLine cfg0]))))
          (some (Fyle.mk "alice.png" (FileContent.bytes [7, 7]))) "HH"
          (some cfg0)).config = some cfg0 ∧
        (Avatar.mk false (some prA)
          (some (Fyle.mk "alice.svg"
            (FileContent.figure (Figure.mk 215 215 [backgroundLine cfg0]))))
          (some (Fyle.mk "alice.png" (FileContent.bytes [7, 7]))) "HH"
          (some cfg0)).svg.isSome = true) :=
  C5_amended_fields envOk [] (some prA) cfg0
    (Avatar.mk false (some prA)
      (some (Fyle.mk "alice.svg"
        (FileContent.figure (Figure.mk 215 215 [backgroundLine cfg0]))))
      none "" (some cfg0))
    (Avatar.mk false (some prA)
      (some (Fyle.mk "alice.svg"
        (FileContent.figure (Figure.mk 215 215 [backgroundLine cfg0]))))
      (some (Fyle.mk "alice.png" (FileContent.bytes [7, 7]))) "HH" (some cfg0))
    rfl rfl

/-- Claim C6 counterexample: in `envBoom` conversion succeeds and hashing
raises, and `CustomAvatar.create` returns the record with its `png` set
to the newly converted file — not left at its pre-conversion value
(`None`). -/
theorem C6_counterexample :
    Except.map (fun r => r.png) (CustomAvatar.create envBoom [] (some prA) cfg0) =
      Except.ok (some (Fyle.mk "alice.png" (FileContent.bytes [7, 7]))) ∧
    (initialCustom (some prA) cfg0).png = none := ⟨rfl, rfl⟩

/-- Claim C6 (amended): when hashing (or PNG decoding) raises,
`CustomAvatar.create` logs a warning and still returns the newly
constructed record with its profile, configuration and composed SVG set
and no deduplication applied; the hash stays at its pre-conversion value,
but the `png` field holds whatever was assigned before the exception: the
converted file when conversion succeeded, `None` when it failed. -/
theorem C6_amended_atomicity (env : Env) (store : List Avatar) (p : Option Profile)
    (cfg : List (String × PyVal)) (a1 : Avatar)
    (h1 : create_from_config env (initialCustom p cfg) = Except.ok a1) :
    (∀ (f : Fyle) (img : Img) (e : String),
      convert_field env a1 a1.svg "svg" "png" = some f →
      env.image_open (fileRead env f) = Except.ok img →
      env.dhash img = Except.error e →
      CustomAvatar.create env store p cfg = Except.ok (a1.setPng (some f))) ∧
    (convert_field env a1 a1.svg "svg" "png" = none →
      CustomAvatar.create env store p cfg = Except.ok (a1.setPng none)) := by
  constructor
  · intro f img e h2 h3 h4
    unfold CustomAvatar.create
    rw [h1]
    show Except.ok (createTry env store a1) = _
    rw [createTry_hash_err h2 h3 h4]
  · intro h2
    unfold CustomAvatar.create
    rw [h1]
    show Except.ok (createTry env store a1) = _
    rw [createTry_conv_none h2]

/-- Witness for the amended C6: in `envBoom` the returned record is the
composed one with the converted PNG attached and the hash still empty. -/
theorem C6_witness :
    CustomAvatar.create envBoom [] (some prA) cfg0 =
      Except.ok ((Avatar.mk false (some prA)
          (some (Fyle.mk "alice.svg"
            (FileContent.figure (Figure.mk 215 215 [backgroundLine cfg0]))))
          none "" (some cfg0)).setPng
        (some (Fyle.mk "alice.png" (FileContent.bytes [7, 7])))) :=
  (C6_amended_atomicity envBoom [] (some prA) cfg0
      (Avatar.mk false (some prA)
        (some (Fyle.mk "alice.svg"
          (FileContent.figure (Figure.mk 215 215 [backgroundLine cfg0]))))
        none "" (some cfg0)) rfl).1
    (Fyle.mk "alice.png" (FileContent.bytes [7, 7])) [7, 7] "boom" rfl rfl rfl

/-- Claim C7: when no stored record duplicates the incoming image (no
record with the same profile and hash), `SocialAvatar.github_avatar`
stores both formats: it returns a record whose hash is the perceptual
hash of the image, whose PNG is saved as `<handle>.png` holding the
image's bytes, and whose SVG is that PNG converted from `png` to `svg`. -/
theorem C7_github_stores_both (env : Env) (store : List Avatar) (pr : Profile) (img : Img)
    (h : String) (hh : env.dhash img = Except.ok h)
    (hnd : ∀ b ∈ store, ¬(b.profile = some pr ∧ b.hash = h)) :
    ∃ r, SocialAvatar.github_avatar env store (some pr) img = Except.ok r ∧
      r.hash = h ∧
      r.png = some (Fyle.mk (pr.handle ++ ".png")
        (FileContent.bytes (env.get_temp_image_file img))) ∧
      r.svg = convert_field env r r.png "png" "svg" := by
  have hfs : find_similar store (Avatar.mk false (some pr) none none h none) = none :=
    find_similar_none store (Avatar.mk false (some pr) none none h none) (by simpa using hnd)
  refine ⟨((Avatar.mk false (some pr) none none h none).setPng
      (some (Fyle.mk (pr.handle ++ ".png")
        (FileContent.bytes (env.get_temp_image_file img))))).setSvg
    (convert_field env
      ((Avatar.mk false (some pr) none none h none).setPng
        (some (Fyle.mk (pr.handle ++ ".png")
          (FileContent.bytes (env.get_temp_image_file img)))))
      ((Avatar.mk false (some pr) none none h none).setPng
        (some (Fyle.mk (pr.handle ++ ".png")
          (FileContent.bytes (env.get_temp_image_file img))))).png
      "png" "svg"), ?_, rfl, rfl, ?_⟩
  · unfold SocialAvatar.github_avatar calculate_hash
    rw [hh]
    show (match find_similar store (Avatar.mk false (some pr) none none h none) with
      | some similar => Except.ok similar
      | none => _) = _
    rw [hfs]
    rfl
  · exact convert_field_congr env rfl
      ((Avatar.mk false (some pr) none none h none).setPng
        (some (Fyle.mk (pr.handle ++ ".png")
          (FileContent.bytes (env.get_temp_image_file img))))).png
      "png" "svg"

/-- Witness for C7: in `envOk` against an empty store, `github_avatar`
returns a record with hash `HH`, the `alice.png` file holding the image
bytes, and the converted SVG. -/
theorem C7_witness :
    ∃ r, SocialAvatar.github_avatar envOk [] (some prA) [1] = Except.ok r ∧
      r.hash = "HH" ∧
      r.png = some (Fyle.mk (prA.handle ++ ".png")
        (FileContent.bytes (envOk.get_temp_image_file [1]))) ∧
      r.svg = convert_field envOk r r.png "png" "svg" :=
  C7_github_stores_both envOk [] prA [1] "HH" rfl (by simp)

end GitcoinAvatar
